import Mathlib

/-!
Shallow embedding of the `embree_rust` safe layer (`src/lib.rs`) around the
native Embree ray-tracing engine.

Modelling conventions:
- Native handles (`RTCDevice`, `RTCScene`, `RTCGeometry`) are opaque pointers;
  we model a handle as a `Nat`, with `0` standing for the null pointer.
- Results of opaque native calls (`rtcNewDevice`, `rtcNewScene`,
  `rtcAttachGeometry`, `rtcIntersect1`) are passed in as explicit oracle
  parameters, since the engine itself is an external collaborator.
- A Rust `panic!` / failed `assert!` / `expect` / `unreachable!` is modelled by
  the `panicked` constructor of the result type; it is an unwinding abort, not
  a value returned to the caller. For operations on the `Embree` manager the
  `panicked` constructor also records the state of the manager at the moment
  the panic fires (mutations performed before the panicking statement have
  already happened).
- The `generational_arena::Arena` dependency is modelled with its slots as a
  list of `Option (generation × value)` and its intrusive free list (a LIFO
  stack threaded through the free entries) as an explicit `List Nat` of free
  slot indices; unused pre-reserved capacity is modelled by appending a fresh
  slot when the free list is empty, which allocates the same slot indices in
  the same order as the crate's `reserve` + ascending free-chain does.
-/

namespace EmbreeRust

/-- Model of `generational_arena::Index`: a slot index paired with the
generation the slot had when the element was inserted. The source wraps this
in `SceneID(Index)` and `GeometryID(Index)`. -/
structure Index where
  idx : Nat
  gen : Nat
deriving DecidableEq, Repr

/-- Model of `generational_arena::Arena`. `items` holds one entry per slot:
`none` is a free slot, `some (g, v)` a slot occupied at generation `g`.
`generation` is the arena-global generation counter (bumped on every
successful `remove`); `free` is the stack of free slot indices (head = next
slot to be reused). -/
structure Arena (α : Type) where
  items : List (Option (Nat × α))
  generation : Nat
  free : List Nat
deriving DecidableEq, Repr

namespace Arena

/-- `Arena::new()`. -/
def new (α : Type) : Arena α := ⟨[], 0, []⟩

/-- `Arena::insert`: reuse the head of the free list at the current
generation, or extend storage with a fresh slot. Returns the issued index and
the updated arena. -/
def insert (a : Arena α) (v : α) : Index × Arena α :=
  match a.free with
  | i :: rest =>
    (⟨i, a.generation⟩,
      { a with items := a.items.set i (some (a.generation, v)), free := rest })
  | [] =>
    (⟨a.items.length, a.generation⟩,
      { a with items := a.items ++ [some (a.generation, v)] })

/-- `Arena::get`: `Some` only when the slot is occupied and its stored
generation matches the index's generation. -/
def get (a : Arena α) (i : Index) : Option α :=
  match a.items[i.idx]? with
  | some (some (g, v)) => if g = i.gen then some v else none
  | _ => none

/-- `Arena::remove`: on a generation match, frees the slot (pushing it on the
free list), bumps the arena generation and returns the value; otherwise
returns `none` and leaves the arena untouched. -/
def remove (a : Arena α) (i : Index) : Option α × Arena α :=
  match a.items[i.idx]? with
  | some (some (g, v)) =>
    if g = i.gen then
      (some v,
        { items := a.items.set i.idx none,
          generation := a.generation + 1,
          free := i.idx :: a.free })
    else (none, a)
  | _ => (none, a)

/-- In-place update through `Arena::get_mut`: replaces the value stored in
the slot of a live index, keeping the slot's generation. (The source only
ever calls this after a successful `get_mut`.) -/
def modifyValue (a : Arena α) (i : Index) (v : α) : Arena α :=
  match a.items[i.idx]? with
  | some (some (g, _)) =>
    if g = i.gen then { a with items := a.items.set i.idx (some (g, v)) } else a
  | _ => a

/-- `true` iff the index currently resolves: the slot is occupied and the
generations agree. An index that is unknown (out of range), freed, or freed
and reused under a bumped generation is not live. -/
def liveAt (a : Arena α) (i : Index) : Bool :=
  match a.items[i.idx]? with
  | some (some (g, _)) => g = i.gen
  | _ => false

/-- Entry-level part of the arena well-formedness invariant: an occupied
slot's generation never exceeds the arena's generation counter. -/
def entryOK (gen : Nat) : Option (Nat × α) → Bool
  | some (g, _) => g ≤ gen
  | none => true

/-- Arena well-formedness, maintained by the crate: every occupied slot was
stamped at some past arena generation, and every index on the free list names
an existing free slot. -/
def WF (a : Arena α) : Prop :=
  (∀ e ∈ a.items, entryOK a.generation e = true) ∧
  (∀ j ∈ a.free, a.items[j]? = some none)

instance (a : Arena α) [DecidableEq α] : Decidable (WF a) := by
  unfold WF; infer_instance

end Arena

/-- Result of a Rust call that may panic but cannot otherwise fail:
`panicked msg` models an unwinding `panic!` / failed assertion carrying its
message; `ok` a normal return. The Rust signatures carry no error variant, so
`panicked` is an abort, not a recoverable error value handed to the caller. -/
inductive PanicOr (α : Type) where
  | panicked (msg : String) : PanicOr α
  | ok (a : α) : PanicOr α
deriving DecidableEq, Repr

/-- Panic message of `assert_ne!(handle, std::ptr::null_mut())`. -/
def nullHandleMsg : String := "assertion failed: handle != null"

/-- Model of `Device`: exclusive owner of one native `RTCDevice` handle. -/
structure Device where
  handle : Nat
deriving DecidableEq, Repr

/-- `Device::new`: calls `rtcNewDevice` (whose returned handle is the oracle
parameter `h`) and `assert_ne!`s the result against the null pointer — a null
handle is a fatal assertion, not a recoverable error. -/
def Device.new (h : Nat) : PanicOr Device :=
  if h = 0 then .panicked nullHandleMsg else .ok ⟨h⟩

/-- Scene-local geometry identifier assigned by the native engine at attach
time (`pub struct GeometrySceneID(pub u32)`). -/
structure GeometrySceneID where
  val : Nat
deriving DecidableEq, Repr

/-- `pub struct SceneID(Index)`. -/
structure SceneID where
  index : Index
deriving DecidableEq, Repr

/-- `pub struct GeometryID(Index)`. -/
structure GeometryID where
  index : Index
deriving DecidableEq, Repr

/-- Model of `SceneUncommitted`: owns a native `RTCScene` handle. `attached`
abstractly tracks the raw scene-local ids the native scene has accepted via
`rtcAttachGeometry` (native-side state, carried for reasoning about the
frozen-after-commit property). -/
structure SceneUncommitted where
  handle : Nat
  attached : List Nat
deriving DecidableEq, Repr

/-- Model of `SceneCommitted`: owns a native `RTCScene` handle; `attached` is
the native scene's attached-geometry set, frozen at commit time. -/
structure SceneCommitted where
  handle : Nat
  attached : List Nat
deriving DecidableEq, Repr

/-- `enum Scene { Uncommitted(SceneUncommitted), Committed(SceneCommitted) }`. -/
inductive Scene where
  | uncommitted (s : SceneUncommitted) : Scene
  | committed (s : SceneCommitted) : Scene
deriving DecidableEq, Repr

/-- `SceneUncommitted::new`: calls `rtcNewScene(device)` (returned handle =
oracle `h`) and `assert_ne!`s it against null — fatal assertion on null, no
recoverable error. A fresh native scene has no attached geometry. -/
def SceneUncommitted.new (_device : Device) (h : Nat) : PanicOr SceneUncommitted :=
  if h = 0 then .panicked nullHandleMsg else .ok ⟨h, []⟩

/-- Events of native calls on scene handles, for the commit transition. -/
inductive NativeEvent where
  | commitScene (h : Nat) : NativeEvent
  | retainScene (h : Nat) : NativeEvent
  | releaseScene (h : Nat) : NativeEvent
deriving DecidableEq, Repr

/-- Reference-count change a native event applies to the scene handle:
`rtcRetainScene` increments, `rtcReleaseScene` decrements,
`rtcCommitScene` leaves it unchanged. -/
def NativeEvent.delta : NativeEvent → Int
  | .commitScene _ => 0
  | .retainScene _ => 1
  | .releaseScene _ => -1

/-- Reference count after running a list of native events from `init`. -/
def refcountAfter (init : Int) : List NativeEvent → Int
  | [] => init
  | e :: rest => refcountAfter (init + e.delta) rest

/-- `SceneUncommitted::attach_geometry`: calls `rtcAttachGeometry` on the
native scene; the id the engine assigns is the oracle `assignedId`.
Returns the wrapped id; the native scene has one more attached geometry. -/
def SceneUncommitted.attach_geometry (s : SceneUncommitted) (_g : Unit)
    (assignedId : Nat) : GeometrySceneID × SceneUncommitted :=
  (⟨assignedId⟩, { s with attached := s.attached ++ [assignedId] })

/-- `SceneUncommitted::commit`: the value transition. The committed wrapper
takes over the same native handle (and native attached set). -/
def SceneUncommitted.commit (s : SceneUncommitted) : SceneCommitted :=
  ⟨s.handle, s.attached⟩

/-- The native calls `SceneUncommitted::commit` issues on its scene handle,
in program order: `rtcCommitScene`, then `rtcRetainScene` (the explicit
retain so the handle survives), and finally — when the consumed `self` is
dropped at the end of the function body — the `rtcReleaseScene` from
`Drop for SceneUncommitted`. -/
def SceneUncommitted.commitEvents (s : SceneUncommitted) : List NativeEvent :=
  [.commitScene s.handle, .retainScene s.handle, .releaseScene s.handle]

/-- `enum Geometry`: variant over primitive kind; each variant owns a native
`RTCGeometry` handle (buffer contents live on the native side). -/
inductive Geometry where
  | triangle (handle : Nat) : Geometry
  | sphere (handle : Nat) : Geometry
deriving DecidableEq, Repr

/-- `GeometryTriangle::new`: calls `rtcNewGeometry` (returned handle = oracle
`h`), fills the vertex/index buffers and commits the geometry natively. Note:
unlike `Device::new` / `SceneUncommitted::new`, the source performs no null
check on the returned handle — the constructor is wrapped in `PanicOr` only
to make its total lack of a failure path explicit. -/
def GeometryTriangle.new (h : Nat) : PanicOr Geometry := .ok (.triangle h)

/-- `GeometrySphere::new`: same shape as `GeometryTriangle::new`; no null
check on the native handle. -/
def GeometrySphere.new (h : Nat) : PanicOr Geometry := .ok (.sphere h)

/-- Ray/hit record returned by `SceneCommitted::intersect`; only the geometry
identifier field matters to this layer (`RTC_INVALID_GEOMETRY_ID` is the
"no hit" sentinel). -/
structure RayHit where
  geomID : Nat
deriving DecidableEq, Repr

/-- `SceneCommitted::intersect`: builds a fresh context and calls
`rtcIntersect1`, which fills the hit in place; the engine's answer is the
oracle `nativeHit`. A pure read — the scene is untouched. -/
def SceneCommitted.intersect (_s : SceneCommitted) (nativeHit : RayHit) : RayHit :=
  nativeHit

/-- Lookup in the `HashMap<GeometrySceneID, GeometryID>`, modelled as an
association list keyed by the raw `u32`. -/
def mapGet : List (Nat × GeometryID) → Nat → Option GeometryID
  | [], _ => none
  | (k', v') :: rest, k => if k' = k then some v' else mapGet rest k

/-- `HashMap::insert`: replaces any existing binding of the key and returns
the old value (`none` if the key was absent), paired with the updated map. -/
def mapInsert : List (Nat × GeometryID) → Nat → GeometryID →
    Option GeometryID × List (Nat × GeometryID)
  | [], k, v => (none, [(k, v)])
  | (k', v') :: rest, k, v =>
    if k' = k then (some v', (k, v) :: rest)
    else
      let r := mapInsert rest k v
      (r.1, (k', v') :: r.2)

/-- Model of the `Embree` manager struct. -/
structure Embree where
  device : Device
  scenes : Arena Scene
  geometries : Arena Geometry
  geometry_id_map : List (Nat × GeometryID)
deriving DecidableEq, Repr

/-- Result of an `Embree` method that may panic: `panicked` records the
panic message and the state of the manager at the moment the panic fires
(mutations already performed by the method are visible in it). -/
inductive EmbreeStep (α : Type) where
  | panicked (msg : String) (state : Embree) : EmbreeStep α
  | ok (a : α) : EmbreeStep α
deriving DecidableEq, Repr

/-- `true` iff the step ended in a panic. -/
def EmbreeStep.isPanic : EmbreeStep α → Bool
  | .panicked _ _ => true
  | .ok _ => false

/-- Panic message of the `expect` on a failed scene lookup. -/
def sceneMissingMsg : String := "scene of given id is not available"

/-- Panic message of the `expect` on a failed geometry lookup. -/
def geometryMissingMsg : String := "geometry of given id is not available"

/-- Panic message of `unreachable!("scene is committed already")`. -/
def sceneCommittedMsg : String := "scene is committed already"

/-- Panic message of `unreachable!` in `intersect_scene` on an uncommitted
scene. -/
def sceneUncommittedMsg : String := "scene must be committed, currently uncommitted"

/-- Panic message of the duplicate-mapping `assert!` in
`attach_geometry_to_scene`. -/
def dupAttachMsg : String := "geometry might have been attached already"

/-- The `let scene = match scene { Uncommitted => commit(), Committed =>
pass through }` step inside `Embree::commit_scene`: an uncommitted scene is
committed, an already committed one flows through unchanged. -/
def Scene.commitOf : Scene → SceneCommitted
  | .uncommitted s => s.commit
  | .committed s => s

namespace Embree

/-- `Embree::commit_scene`: removes the scene (panicking via `expect` when
the id is unknown or stale), commits it if it was uncommitted — an already
committed scene is passed through unchanged — and re-inserts it as committed,
returning the new id. -/
def commit_scene (e : Embree) (id : SceneID) : EmbreeStep (SceneID × Embree) :=
  match Arena.remove e.scenes id.index with
  | (none, _) => .panicked sceneMissingMsg e
  | (some scene, scenes') =>
    let r := Arena.insert scenes' (.committed scene.commitOf)
    .ok (⟨r.1⟩, { e with scenes := r.2 })

/-- `Embree::attach_geometry_to_scene`: looks up the scene (`expect` panic if
missing/stale; `unreachable!` panic if committed), looks up the geometry
(`expect` panic if missing/stale), attaches it natively (engine-assigned id =
oracle `assignedId`), records the id pair in `geometry_id_map`, and `assert!`s
that the id had no previous mapping — the assert fires after the insert. -/
def attach_geometry_to_scene (e : Embree) (geometry_id : GeometryID)
    (scene_id : SceneID) (assignedId : Nat) : EmbreeStep Embree :=
  match Arena.get e.scenes scene_id.index with
  | none => .panicked sceneMissingMsg e
  | some (.committed _) => .panicked sceneCommittedMsg e
  | some (.uncommitted s) =>
    match Arena.get e.geometries geometry_id.index with
    | none => .panicked geometryMissingMsg e
    | some _g =>
      let r := s.attach_geometry () assignedId
      let scenes' := Arena.modifyValue e.scenes scene_id.index (.uncommitted r.2)
      let m := mapInsert e.geometry_id_map r.1.val geometry_id
      let e' : Embree := { e with scenes := scenes', geometry_id_map := m.2 }
      match m.1 with
      | some _ => .panicked dupAttachMsg e'
      | none => .ok e'

/-- `Embree::intersect_scene`: looks up the scene (`expect` panic if
missing/stale; `unreachable!` panic if uncommitted) and intersects the ray
(native answer = oracle `nativeHit`). Read-only: no state is returned. -/
def intersect_scene (e : Embree) (scene_id : SceneID) (nativeHit : RayHit) :
    EmbreeStep RayHit :=
  match Arena.get e.scenes scene_id.index with
  | none => .panicked sceneMissingMsg e
  | some (.uncommitted _) => .panicked sceneUncommittedMsg e
  | some (.committed s) => .ok (s.intersect nativeHit)

/-- `Embree::get_geometry_id_from_geometry_scene_id`: plain map lookup, keyed
only by the scene-local id — no `SceneID` parameter exists. -/
def get_geometry_id_from_geometry_scene_id (e : Embree)
    (geometry_scene_id : GeometrySceneID) : Option GeometryID :=
  mapGet e.geometry_id_map geometry_scene_id.val

end Embree

/-! ## Helper lemmas about the embedded operations -/

theorem mapInsert_fst (m : List (Nat × GeometryID)) (k : Nat) (v : GeometryID) :
    (mapInsert m k v).1 = mapGet m k := by
  induction m with
  | nil => rfl
  | cons p rest ih =>
    obtain ⟨k', v'⟩ := p
    by_cases h : k' = k <;> simp [mapInsert, mapGet, h, ih]

theorem mapGet_mapInsert_self (m : List (Nat × GeometryID)) (k : Nat)
    (v : GeometryID) : mapGet (mapInsert m k v).2 k = some v := by
  induction m with
  | nil => simp [mapInsert, mapGet]
  | cons p rest ih =>
    obtain ⟨k', v'⟩ := p
    by_cases h : k' = k <;> simp [mapInsert, mapGet, h, ih]

namespace Arena

theorem get_elim {α : Type} {a : Arena α} {i : Index} {v : α}
    (h : get a i = some v) : a.items[i.idx]? = some (some (i.gen, v)) := by
  unfold get at h
  split at h
  · rename_i g w heq
    split at h
    · rename_i hg
      cases h
      rw [heq, hg]
    · cases h
  · cases h

theorem get_intro {α : Type} {a : Arena α} {i : Index} {v : α}
    (hm : a.items[i.idx]? = some (some (i.gen, v))) : get a i = some v := by
  unfold get
  rw [hm]
  simp

theorem get_mismatch {α : Type} {a : Arena α} {i : Index} {g : Nat} {v : α}
    (hm : a.items[i.idx]? = some (some (g, v))) (hne : g ≠ i.gen) :
    get a i = none := by
  unfold get
  rw [hm]
  simp [hne]

theorem get_of_not_live {α : Type} {a : Arena α} {i : Index}
    (h : liveAt a i = false) : get a i = none := by
  unfold liveAt at h
  unfold get
  split at h
  · simp_all
  · rfl

theorem remove_of_not_live {α : Type} {a : Arena α} {i : Index}
    (h : liveAt a i = false) : remove a i = (none, a) := by
  unfold liveAt at h
  unfold remove
  split at h
  · simp_all
  · rfl

theorem remove_live {α : Type} {a : Arena α} {i : Index} {v : α}
    (hm : a.items[i.idx]? = some (some (i.gen, v))) :
    remove a i = (some v,
      ⟨a.items.set i.idx none, a.generation + 1, i.idx :: a.free⟩) := by
  unfold remove
  rw [hm]
  simp

theorem insert_free_cons {α : Type} {a : Arena α} {j : Nat} {rest : List Nat}
    (v : α) (hf : a.free = j :: rest) :
    insert a v = (⟨j, a.generation⟩,
      { a with items := a.items.set j (some (a.generation, v)), free := rest }) := by
  unfold insert
  rw [hf]

theorem insert_free_nil {α : Type} {a : Arena α} (v : α) (hf : a.free = []) :
    insert a v = (⟨a.items.length, a.generation⟩,
      { a with items := a.items ++ [some (a.generation, v)] }) := by
  unfold insert
  rw [hf]

theorem get_insert_of_mismatch {α : Type} {a : Arena α} {i : Index}
    {g : Nat} {w : α}
    (hm : a.items[i.idx]? = some (some (g, w))) (hne : g ≠ i.gen)
    (hfree : ∀ j ∈ a.free, a.items[j]? = some none) (v : α) :
    get (insert a v).2 i = none := by
  have hlt : i.idx < a.items.length := (List.getElem?_eq_some.mp hm).1
  rcases hf : a.free with _ | ⟨j, rest⟩
  · rw [insert_free_nil v hf]
    have hm2 : (a.items ++ [some (a.generation, v)])[i.idx]? =
        some (some (g, w)) := by
      rw [List.getElem?_append_left hlt]
      exact hm
    exact get_mismatch hm2 hne
  · have hjfree := hfree j (by rw [hf]; exact List.mem_cons_self _ _)
    have hjne : j ≠ i.idx := by
      intro hEq
      rw [hEq, hm] at hjfree
      cases hjfree
    rw [insert_free_cons v hf]
    have hm2 : (a.items.set j (some (a.generation, v)))[i.idx]? =
        some (some (g, w)) := by
      rw [List.getElem?_set_ne hjne]
      exact hm
    exact get_mismatch hm2 hne

end Arena

namespace Embree

theorem commit_scene_live {e : Embree} {id : SceneID} {s : Scene}
    (hm : e.scenes.items[id.index.idx]? = some (some (id.index.gen, s))) :
    e.commit_scene id = EmbreeStep.ok
      (⟨⟨id.index.idx, e.scenes.generation + 1⟩⟩,
       { e with scenes :=
           ⟨(e.scenes.items.set id.index.idx none).set id.index.idx
              (some (e.scenes.generation + 1, Scene.committed s.commitOf)),
            e.scenes.generation + 1,
            e.scenes.free⟩ }) := by
  unfold commit_scene Arena.remove Arena.insert
  rw [hm]
  simp

theorem attach_found_dup {e : Embree} {gid : GeometryID} {sid : SceneID}
    {aid : Nat} {s : SceneUncommitted} {g : Geometry} {old : GeometryID}
    (hs : Arena.get e.scenes sid.index = some (.uncommitted s))
    (hg : Arena.get e.geometries gid.index = some g)
    (hdup : mapGet e.geometry_id_map aid = some old) :
    e.attach_geometry_to_scene gid sid aid = EmbreeStep.panicked dupAttachMsg
      { e with
        scenes := Arena.modifyValue e.scenes sid.index
          (.uncommitted { s with attached := s.attached ++ [aid] }),
        geometry_id_map := (mapInsert e.geometry_id_map aid gid).2 } := by
  unfold attach_geometry_to_scene
  rw [hs, hg]
  simp only [SceneUncommitted.attach_geometry, mapInsert_fst, hdup]

theorem attach_found_fresh {e : Embree} {gid : GeometryID} {sid : SceneID}
    {aid : Nat} {s : SceneUncommitted} {g : Geometry}
    (hs : Arena.get e.scenes sid.index = some (.uncommitted s))
    (hg : Arena.get e.geometries gid.index = some g)
    (hfresh : mapGet e.geometry_id_map aid = none) :
    e.attach_geometry_to_scene gid sid aid = EmbreeStep.ok
      { e with
        scenes := Arena.modifyValue e.scenes sid.index
          (.uncommitted { s with attached := s.attached ++ [aid] }),
        geometry_id_map := (mapInsert e.geometry_id_map aid gid).2 } := by
  unfold attach_geometry_to_scene
  rw [hs, hg]
  simp only [SceneUncommitted.attach_geometry, mapInsert_fst, hfresh]

theorem attach_ok_inv {e : Embree} {gid : GeometryID} {sid : SceneID}
    {aid : Nat} {e' : Embree}
    (h : e.attach_geometry_to_scene gid sid aid = EmbreeStep.ok e') :
    e'.geometry_id_map = (mapInsert e.geometry_id_map aid gid).2 := by
  unfold attach_geometry_to_scene at h
  split at h
  · cases h
  · cases h
  · rename_i s heq
    split at h
    · cases h
    · rename_i g heq'
      simp only [SceneUncommitted.attach_geometry] at h
      split at h
      · cases h
      · cases h
        rfl

end Embree

/-! ## Concrete example states -/

/-- Scene/geometry ids of slot 0 and slot 1 at generation 0. -/
def sid0 : SceneID := ⟨⟨0, 0⟩⟩

/-- Scene id of slot 1 at generation 0. -/
def sid1 : SceneID := ⟨⟨1, 0⟩⟩

/-- Geometry id of slot 0 at generation 0. -/
def gid0 : GeometryID := ⟨⟨0, 0⟩⟩

/-- Geometry id of slot 1 at generation 0. -/
def gid1 : GeometryID := ⟨⟨1, 0⟩⟩

/-- Manager with one uncommitted scene in slot 0 and two geometries. -/
def exUncommitted : Embree :=
  { device := ⟨1⟩,
    scenes := ⟨[some (0, .uncommitted ⟨2, []⟩)], 0, []⟩,
    geometries := ⟨[some (0, .triangle 3), some (0, .sphere 4)], 0, []⟩,
    geometry_id_map := [] }

/-- Manager with one already-committed scene in slot 0. -/
def exCommitted : Embree :=
  { device := ⟨1⟩,
    scenes := ⟨[some (0, .committed ⟨2, []⟩)], 0, []⟩,
    geometries := ⟨[some (0, .triangle 3)], 0, []⟩,
    geometry_id_map := [] }

/-- Manager whose scene slot 0 was freed and reused at generation 1 (the
state `commit_scene` leaves behind), so `sid0` (generation 0) is stale. -/
def exStale : Embree :=
  { device := ⟨1⟩,
    scenes := ⟨[some (1, .committed ⟨2, []⟩)], 1, []⟩,
    geometries := ⟨[some (0, .triangle 3)], 0, []⟩,
    geometry_id_map := [] }

/-- Manager whose identity map already binds scene-local id `0` to `gid0`. -/
def exDup : Embree :=
  { device := ⟨1⟩,
    scenes := ⟨[some (0, .uncommitted ⟨2, [0]⟩)], 0, []⟩,
    geometries := ⟨[some (0, .triangle 3), some (0, .sphere 4)], 0, []⟩,
    geometry_id_map := [(0, gid0)] }

/-- The state `attach_geometry_to_scene gid0 sid0 0` produces from
`exUncommitted`. -/
def exAttached : Embree :=
  { device := ⟨1⟩,
    scenes := ⟨[some (0, .uncommitted ⟨2, [0]⟩)], 0, []⟩,
    geometries := ⟨[some (0, .triangle 3), some (0, .sphere 4)], 0, []⟩,
    geometry_id_map := [(0, gid0)] }

/-- Manager with two uncommitted scenes (slots 0 and 1) and two geometries. -/
def exTwoScenes : Embree :=
  { device := ⟨1⟩,
    scenes := ⟨[some (0, .uncommitted ⟨2, []⟩), some (0, .uncommitted ⟨5, []⟩)], 0, []⟩,
    geometries := ⟨[some (0, .triangle 3), some (0, .sphere 4)], 0, []⟩,
    geometry_id_map := [] }

/-- The state the first attach (`gid0` to `sidA = sid0`, engine id `0`)
produces from `exTwoScenes`. -/
def exTwoScenesAttached : Embree :=
  { device := ⟨1⟩,
    scenes := ⟨[some (0, .uncommitted ⟨2, [0]⟩), some (0, .uncommitted ⟨5, []⟩)], 0, []⟩,
    geometries := ⟨[some (0, .triangle 3), some (0, .sphere 4)], 0, []⟩,
    geometry_id_map := [(0, gid0)] }

/-! ## The claims -/

/-- C1 (counterexample): in `exCommitted`, the slot of `sid0` holds a scene
that is already in the Committed state, yet `commit_scene` does not fail with
a fatal assertion — it returns normally (re-commit is silently tolerated, not
rejected), refuting the claim. -/
theorem C1_counterexample_recommit_not_rejected :
    Arena.get exCommitted.scenes sid0.index = some (.committed ⟨2, []⟩) ∧
    (exCommitted.commit_scene sid0).isPanic = false := by
  decide

/-- C1 (amended): for every SceneID whose slot holds a Scene already in the
Committed state, `commit_scene` does not assert: it succeeds, passing the
committed scene through unchanged and re-inserting it under a new SceneID. -/
theorem C1_recommit_silently_tolerated (e : Embree) (id : SceneID)
    (s : SceneCommitted)
    (h : Arena.get e.scenes id.index = some (.committed s)) :
    ∃ nid e', e.commit_scene id = EmbreeStep.ok (nid, e') ∧
      Arena.get e'.scenes nid.index = some (.committed s) := by
  have hm := Arena.get_elim h
  have hlt : id.index.idx < e.scenes.items.length := (List.getElem?_eq_some.mp hm).1
  have hlt2 : id.index.idx < (e.scenes.items.set id.index.idx none).length := by
    rw [List.length_set]; exact hlt
  refine ⟨_, _, Embree.commit_scene_live hm, Arena.get_intro ?_⟩
  rw [List.getElem?_set_self hlt2]
  rfl

/-- C1 (witness): the amended theorem applied to `exCommitted` and `sid0`. -/
theorem C1_recommit_silently_tolerated_witness :
    Arena.get exCommitted.scenes sid0.index = some (.committed ⟨2, []⟩) ∧
    ∃ nid e', exCommitted.commit_scene sid0 = EmbreeStep.ok (nid, e') ∧
      Arena.get e'.scenes nid.index = some (.committed ⟨2, []⟩) :=
  ⟨by decide, C1_recommit_silently_tolerated exCommitted sid0 ⟨2, []⟩ (by decide)⟩

/-- C2 (counterexample): a null native handle makes `Device::new` and
`SceneUncommitted::new` panic through `assert_ne!` — a crash, not a
recoverable error value surfaced to the caller — refuting the claim. -/
theorem C2_counterexample_null_handle_asserts :
    Device.new 0 = PanicOr.panicked nullHandleMsg ∧
    SceneUncommitted.new ⟨1⟩ 0 = PanicOr.panicked nullHandleMsg :=
  ⟨rfl, rfl⟩

/-- C2 (amended): when the native allocation call returns a null handle,
`Device::new` and `SceneUncommitted::new` fail with a fatal assertion
(`assert_ne!`), not a recoverable error value, while the geometry
constructors perform no null check at all and construct the wrapper
regardless. -/
theorem C2_null_handle_is_fatal (d : Device) (h : Nat) (hnull : h = 0) :
    Device.new h = PanicOr.panicked nullHandleMsg ∧
    SceneUncommitted.new d h = PanicOr.panicked nullHandleMsg ∧
    GeometryTriangle.new h = PanicOr.ok (.triangle h) ∧
    GeometrySphere.new h = PanicOr.ok (.sphere h) := by
  subst hnull
  exact ⟨rfl, rfl, rfl, rfl⟩

/-- C2 (witness): the amended theorem applied at the null handle. -/
theorem C2_null_handle_is_fatal_witness :
    Device.new 0 = PanicOr.panicked nullHandleMsg ∧
    SceneUncommitted.new ⟨1⟩ 0 = PanicOr.panicked nullHandleMsg ∧
    GeometryTriangle.new 0 = PanicOr.ok (.triangle 0) ∧
    GeometrySphere.new 0 = PanicOr.ok (.sphere 0) :=
  C2_null_handle_is_fatal ⟨1⟩ 0 rfl

/-- C3: for an unknown or stale id (slot out of range, freed, or freed and
reused under a bumped generation) — be it a SceneID or a GeometryID — the
registry lookup itself returns an empty result — `get` yields `none` and
`remove` yields `none` leaving the arena untouched, raising nothing — and the
public operations `commit_scene`, `attach_geometry_to_scene` and
`intersect_scene`, as the callers of those lookups (the geometry lookup is
the one `attach_geometry_to_scene` performs once the scene resolved to an
uncommitted scene), are the ones that decide absence is fatal: they panic via
`expect`. -/
theorem C3_stale_lookup_returns_empty (e : Embree) (sid : SceneID)
    (gid : GeometryID) :
    (Arena.liveAt e.scenes sid.index = false →
      Arena.get e.scenes sid.index = none ∧
      Arena.remove e.scenes sid.index = (none, e.scenes) ∧
      e.commit_scene sid = EmbreeStep.panicked sceneMissingMsg e ∧
      (∀ gid' aid, e.attach_geometry_to_scene gid' sid aid =
        EmbreeStep.panicked sceneMissingMsg e) ∧
      (∀ hit, e.intersect_scene sid hit =
        EmbreeStep.panicked sceneMissingMsg e)) ∧
    (Arena.liveAt e.geometries gid.index = false →
      Arena.get e.geometries gid.index = none ∧
      Arena.remove e.geometries gid.index = (none, e.geometries) ∧
      (∀ sid' s aid, Arena.get e.scenes sid'.index = some (.uncommitted s) →
        e.attach_geometry_to_scene gid sid' aid =
          EmbreeStep.panicked geometryMissingMsg e)) := by
  constructor
  · intro h
    have hget := Arena.get_of_not_live h
    have hrem := Arena.remove_of_not_live h
    refine ⟨hget, hrem, ?_, ?_, ?_⟩
    · unfold Embree.commit_scene
      rw [hrem]
    · intro gid' aid
      unfold Embree.attach_geometry_to_scene
      rw [hget]
    · intro hit
      unfold Embree.intersect_scene
      rw [hget]
  · intro h
    have hget := Arena.get_of_not_live h
    have hrem := Arena.remove_of_not_live h
    refine ⟨hget, hrem, ?_⟩
    intro sid' s aid hs
    unfold Embree.attach_geometry_to_scene
    rw [hs, hget]

/-- C3 (witness): the theorem applied to `exStale` with the stale scene id
`sid0` (slot 0 was freed and reused at generation 1) and the unknown geometry
id `gid1` (slot out of range), both hypotheses discharged concretely. -/
theorem C3_stale_lookup_returns_empty_witness :
    Arena.liveAt exStale.scenes sid0.index = false ∧
    Arena.liveAt exStale.geometries gid1.index = false ∧
    (Arena.get exStale.scenes sid0.index = none ∧
     Arena.remove exStale.scenes sid0.index = (none, exStale.scenes) ∧
     exStale.commit_scene sid0 = EmbreeStep.panicked sceneMissingMsg exStale ∧
     (∀ gid' aid, exStale.attach_geometry_to_scene gid' sid0 aid =
       EmbreeStep.panicked sceneMissingMsg exStale) ∧
     (∀ hit, exStale.intersect_scene sid0 hit =
       EmbreeStep.panicked sceneMissingMsg exStale)) ∧
    (Arena.get exStale.geometries gid1.index = none ∧
     Arena.remove exStale.geometries gid1.index = (none, exStale.geometries) ∧
     (∀ sid' s aid,
       Arena.get exStale.scenes sid'.index = some (.uncommitted s) →
       exStale.attach_geometry_to_scene gid1 sid' aid =
         EmbreeStep.panicked geometryMissingMsg exStale)) :=
  ⟨by decide, by decide,
   (C3_stale_lookup_returns_empty exStale sid0 gid1).1 (by decide),
   (C3_stale_lookup_returns_empty exStale sid0 gid1).2 (by decide)⟩

/-- C4: when the engine-assigned scene-local id already has an entry in the
identity map, the record step of `attach_geometry_to_scene` fails with the
fatal `assert!` (panic message `dupAttachMsg`): the duplicate is never
silently accepted. -/
theorem C4_duplicate_record_asserts (e : Embree) (gid : GeometryID)
    (sid : SceneID) (aid : Nat) (s : SceneUncommitted) (g : Geometry)
    (old : GeometryID)
    (hs : Arena.get e.scenes sid.index = some (.uncommitted s))
    (hg : Arena.get e.geometries gid.index = some g)
    (hdup : mapGet e.geometry_id_map aid = some old) :
    ∃ st, e.attach_geometry_to_scene gid sid aid =
      EmbreeStep.panicked dupAttachMsg st :=
  ⟨_, Embree.attach_found_dup hs hg hdup⟩

/-- C4 (witness): attaching `gid1` to the scene of `exDup` under the
engine-assigned id `0`, which is already mapped, panics with the duplicate
assertion. -/
theorem C4_duplicate_record_asserts_witness :
    Arena.get exDup.scenes sid0.index = some (.uncommitted ⟨2, [0]⟩) ∧
    Arena.get exDup.geometries gid1.index = some (.sphere 4) ∧
    mapGet exDup.geometry_id_map 0 = some gid0 ∧
    ∃ st, exDup.attach_geometry_to_scene gid1 sid0 0 =
      EmbreeStep.panicked dupAttachMsg st :=
  ⟨by decide, by decide, by decide,
   C4_duplicate_record_asserts exDup gid1 sid0 0 ⟨2, [0]⟩ (.sphere 4) gid0
     (by decide) (by decide) (by decide)⟩

/-- C5: round-trip — whenever `attach_geometry_to_scene` succeeds with the
engine-assigned scene-local id `aid`, resolving `⟨aid⟩` through
`get_geometry_id_from_geometry_scene_id` on the resulting state returns
exactly the attached GeometryID. -/
theorem C5_attach_roundtrip (e : Embree) (gid : GeometryID) (sid : SceneID)
    (aid : Nat) (e' : Embree)
    (h : e.attach_geometry_to_scene gid sid aid = EmbreeStep.ok e') :
    e'.get_geometry_id_from_geometry_scene_id ⟨aid⟩ = some gid := by
  unfold Embree.get_geometry_id_from_geometry_scene_id
  rw [Embree.attach_ok_inv h]
  exact mapGet_mapInsert_self _ _ _

/-- C5 (witness): the round-trip theorem applied to the concrete attach of
`gid0` to `sid0` in `exUncommitted`. -/
theorem C5_attach_roundtrip_witness :
    exUncommitted.attach_geometry_to_scene gid0 sid0 0 =
      EmbreeStep.ok exAttached ∧
    exAttached.get_geometry_id_from_geometry_scene_id ⟨0⟩ = some gid0 :=
  ⟨by decide, C5_attach_roundtrip exUncommitted gid0 sid0 0 exAttached (by decide)⟩

/-- C6: in the native-call trace of `SceneUncommitted::commit`, the
`rtcRetainScene` call occurs strictly before the `rtcReleaseScene` issued by
the consumed wrapper's destructor, the handle's reference count (which starts
at 1, from `rtcNewScene`) stays at least 1 after every prefix of the trace,
and the returned Committed wrapper owns the very same native handle. -/
theorem C6_retain_before_release (s : SceneUncommitted) :
    (∀ n, 1 ≤ refcountAfter 1 (s.commitEvents.take n)) ∧
    (∃ i j : Nat, i < j ∧
      s.commitEvents[i]? = some (NativeEvent.retainScene s.handle) ∧
      s.commitEvents[j]? = some (NativeEvent.releaseScene s.handle)) ∧
    s.commit.handle = s.handle := by
  refine ⟨?_, ⟨1, 2, by omega, rfl, rfl⟩, rfl⟩
  intro n
  rcases n with _ | _ | _ | n <;>
    simp [SceneUncommitted.commitEvents, refcountAfter, NativeEvent.delta,
      List.take]

/-- C7: committing a live scene returns a SceneID different from the one
passed in, and afterwards a lookup by the old SceneID reports not-found —
both in the post-state itself (whose slot was already reused at a bumped
generation by the re-insert) and after any further insert into the scenes
registry (generation mismatch). -/
theorem C7_commit_scene_fresh_id (e : Embree) (id : SceneID) (s : Scene)
    (hwf : Arena.WF e.scenes)
    (hlive : Arena.get e.scenes id.index = some s) :
    ∃ nid e', e.commit_scene id = EmbreeStep.ok (nid, e') ∧ nid ≠ id ∧
      Arena.get e'.scenes id.index = none ∧
      ∀ v, Arena.get (Arena.insert e'.scenes v).2 id.index = none := by
  obtain ⟨hwf1, hwf2⟩ := hwf
  have hm := Arena.get_elim hlive
  have hlt : id.index.idx < e.scenes.items.length := (List.getElem?_eq_some.mp hm).1
  have hgen : id.index.gen ≤ e.scenes.generation := by
    have := hwf1 _ (List.getElem?_mem hm)
    simpa [Arena.entryOK] using this
  have hlt2 : id.index.idx < (e.scenes.items.set id.index.idx none).length := by
    rw [List.length_set]; exact hlt
  have hm' : ((e.scenes.items.set id.index.idx none).set id.index.idx
      (some (e.scenes.generation + 1, Scene.committed s.commitOf)))[id.index.idx]? =
      some (some (e.scenes.generation + 1, Scene.committed s.commitOf)) :=
    List.getElem?_set_self hlt2
  refine ⟨_, _, Embree.commit_scene_live hm, ?_, ?_, ?_⟩
  · intro hEq
    have : e.scenes.generation + 1 = id.index.gen :=
      congrArg (fun x => x.index.gen) hEq
    omega
  · exact Arena.get_mismatch hm' (by omega)
  · intro v
    refine Arena.get_insert_of_mismatch hm' (by omega) ?_ v
    intro j hj
    have hjfree : e.scenes.items[j]? = some none := hwf2 j hj
    have hjne : id.index.idx ≠ j := by
      intro hEq
      rw [← hEq, hm] at hjfree
      cases hjfree
    show ((e.scenes.items.set id.index.idx none).set id.index.idx
      (some (e.scenes.generation + 1, Scene.committed s.commitOf)))[j]? = some none
    rw [List.getElem?_set_ne hjne, List.getElem?_set_ne hjne]
    exact hjfree

/-- C7 (witness): the theorem applied to the live uncommitted scene of
`exUncommitted`. -/
theorem C7_commit_scene_fresh_id_witness :
    Arena.WF exUncommitted.scenes ∧
    Arena.get exUncommitted.scenes sid0.index = some (.uncommitted ⟨2, []⟩) ∧
    (∃ nid e', exUncommitted.commit_scene sid0 = EmbreeStep.ok (nid, e') ∧
      nid ≠ sid0 ∧ Arena.get e'.scenes sid0.index = none ∧
      ∀ v, Arena.get (Arena.insert e'.scenes v).2 sid0.index = none) :=
  ⟨by decide, by decide,
   C7_commit_scene_fresh_id exUncommitted sid0 (.uncommitted ⟨2, []⟩)
     (by decide) (by decide)⟩

/-- C8: when the slot of the given SceneID holds a Committed scene,
`attach_geometry_to_scene` takes the fatal `unreachable!` branch: it panics
with the contract-violation message and the manager state at the panic is
exactly the input state — nothing, in particular no committed scene's
attached-geometry set, was mutated. -/
theorem C8_attach_committed_rejected (e : Embree) (gid : GeometryID)
    (sid : SceneID) (aid : Nat) (s : SceneCommitted)
    (h : Arena.get e.scenes sid.index = some (.committed s)) :
    e.attach_geometry_to_scene gid sid aid =
      EmbreeStep.panicked sceneCommittedMsg e := by
  unfold Embree.attach_geometry_to_scene
  rw [h]

/-- C8 (witness): the theorem applied to the committed scene of
`exCommitted`. -/
theorem C8_attach_committed_rejected_witness :
    Arena.get exCommitted.scenes sid0.index = some (.committed ⟨2, []⟩) ∧
    exCommitted.attach_geometry_to_scene gid0 sid0 0 =
      EmbreeStep.panicked sceneCommittedMsg exCommitted :=
  ⟨by decide,
   C8_attach_committed_rejected exCommitted gid0 sid0 0 ⟨2, []⟩ (by decide)⟩

/-- C9: the duplicate-mapping failure is not atomic — when the
engine-assigned id already has a mapping, `attach_geometry_to_scene` panics
only after the `HashMap::insert` has run, so the state at the panic already
contains the new binding (the old mapping for that id is lost). -/
theorem C9_duplicate_record_overwrites_before_assert (e : Embree)
    (gid : GeometryID) (sid : SceneID) (aid : Nat) (s : SceneUncommitted)
    (g : Geometry) (old : GeometryID)
    (hs : Arena.get e.scenes sid.index = some (.uncommitted s))
    (hg : Arena.get e.geometries gid.index = some g)
    (hdup : mapGet e.geometry_id_map aid = some old) :
    e.attach_geometry_to_scene gid sid aid = EmbreeStep.panicked dupAttachMsg
      { e with
        scenes := Arena.modifyValue e.scenes sid.index
          (.uncommitted { s with attached := s.attached ++ [aid] }),
        geometry_id_map := (mapInsert e.geometry_id_map aid gid).2 } ∧
    mapGet (mapInsert e.geometry_id_map aid gid).2 aid = some gid :=
  ⟨Embree.attach_found_dup hs hg hdup, mapGet_mapInsert_self _ _ _⟩

/-- C9 (witness): in `exDup` (scene-local id 0 already bound to `gid0`),
attaching `gid1` under engine id 0 panics with the map already rebound to
`gid1`. -/
theorem C9_duplicate_record_overwrites_before_assert_witness :
    mapGet exDup.geometry_id_map 0 = some gid0 ∧
    (exDup.attach_geometry_to_scene gid1 sid0 0 = EmbreeStep.panicked dupAttachMsg
      { exDup with
        scenes := Arena.modifyValue exDup.scenes sid0.index
          (.uncommitted ⟨2, [0, 0]⟩),
        geometry_id_map := (mapInsert exDup.geometry_id_map 0 gid1).2 } ∧
     mapGet (mapInsert exDup.geometry_id_map 0 gid1).2 0 = some gid1) :=
  ⟨by decide,
   C9_duplicate_record_overwrites_before_assert exDup gid1 sid0 0 ⟨2, [0]⟩
     (.sphere 4) gid0 (by decide) (by decide) (by decide)⟩

/-- C10: the identity map is one table shared by all scenes, keyed only by
the raw scene-local id — so after a successful attach to one scene under
engine id `r`, a second attach to a *different* scene that also receives `r`
trips the duplicate-mapping assertion even though the two attaches target
distinct scenes. -/
theorem C10_cross_scene_collision (e : Embree) (gidA gidB : GeometryID)
    (sidA sidB : SceneID) (r : Nat) (e1 : Embree) (sB : SceneUncommitted)
    (gB : Geometry)
    (hne : sidA ≠ sidB)
    (h1 : e.attach_geometry_to_scene gidA sidA r = EmbreeStep.ok e1)
    (hsB : Arena.get e1.scenes sidB.index = some (.uncommitted sB))
    (hgB : Arena.get e1.geometries gidB.index = some gB) :
    ∃ st, e1.attach_geometry_to_scene gidB sidB r =
      EmbreeStep.panicked dupAttachMsg st := by
  have hdup : mapGet e1.geometry_id_map r = some gidA := by
    rw [Embree.attach_ok_inv h1]
    exact mapGet_mapInsert_self _ _ _
  exact ⟨_, Embree.attach_found_dup hsB hgB hdup⟩

/-- C10 (witness): in `exTwoScenes`, attaching `gid0` to scene `sid0` under
engine id 0 succeeds; attaching `gid1` to the *other* scene `sid1` under the
same engine id 0 then panics with the duplicate assertion. -/
theorem C10_cross_scene_collision_witness :
    sid0 ≠ sid1 ∧
    exTwoScenes.attach_geometry_to_scene gid0 sid0 0 =
      EmbreeStep.ok exTwoScenesAttached ∧
    ∃ st, exTwoScenesAttached.attach_geometry_to_scene gid1 sid1 0 =
      EmbreeStep.panicked dupAttachMsg st :=
  ⟨by decide, by decide,
   C10_cross_scene_collision exTwoScenes gid0 gid1 sid0 sid1 0
     exTwoScenesAttached ⟨5, []⟩ (.sphere 4) (by decide) (by decide)
     (by decide) (by decide)⟩

end EmbreeRust
